import Mathlib

/-!
Shallow embedding of the order-placement core of the Marketplace Familiar
backend (an Express + Sequelize REST API). The definitions below are
translated from the JavaScript source: the Sequelize models (Product, Cart,
CartItem, Order, OrderItem, Address) and the controllers (orderController,
addressController, productController). DECIMAL columns and JS numbers are
modelled as exact rationals, INTEGER columns as integers, ENUM columns as
their raw strings. Each controller action becomes a function from a database
state to a result paired with the successor state; the Sequelize transaction
is modelled by returning the untouched input state on every rollback path.
-/

namespace Marketplace

/-- Product row (src/src/models/Product.js). -/
structure Product where
  id : Nat
  nome : String
  descricao : Option String
  preco : ℚ
  unidadeMedida : String
  estoque : Int
  imagemUrl : Option String
  categoryId : Nat
  produtorId : Nat
  ativo : Bool
  promocao : Bool
  percentualDesconto : Option Nat
deriving DecidableEq, Repr

/-- Product.prototype.getPrecoFinal (src/src/models/Product.js). The JS guard
`this.promocao && this.percentualDesconto` is truthy only when promocao is
true and percentualDesconto is neither null nor 0. -/
def getPrecoFinal (p : Product) : ℚ :=
  if p.promocao && (p.percentualDesconto.getD 0 != 0) then
    p.preco - (p.preco * (p.percentualDesconto.getD 0 : ℚ)) / 100
  else p.preco

/-- Cart line (src/src/models/CartItem.js): the product reference and the
quantity. The unique index on (cartId, productId) is stated as a hypothesis
where a theorem needs it. -/
structure CartItem where
  productId : Nat
  quantidade : Nat
deriving DecidableEq, Repr

/-- Cart row together with its cart_items (src/src/models/Cart.js), as the
order controller loads it via Cart.findOne with the itens include. -/
structure Cart where
  id : Nat
  userId : Nat
  itens : List CartItem
deriving DecidableEq, Repr

/-- Address row (src/src/models/Address.js, shipped among the unnamed model
files). -/
structure Address where
  id : Nat
  userId : Nat
  rua : String
  numero : String
  complemento : Option String
  bairro : String
  cidade : String
  estado : String
  cep : String
  principal : Bool
deriving DecidableEq, Repr

/-- Order row (Order model, src/unnamed/part_004). status carries the raw ENUM
string; enderecoEntrega is the JSON copy of the address taken at creation
time; the date columns are abstract clock values. -/
structure Order where
  id : Nat
  consumidorId : Nat
  status : String
  valorTotal : ℚ
  enderecoEntrega : Address
  observacoes : Option String
  dataEntregaPrevista : Option Nat
  dataEntregaRealizada : Option Nat
deriving DecidableEq, Repr

/-- OrderItem row (src/src/models/OrderItem.js). -/
structure OrderItem where
  orderId : Nat
  productId : Nat
  quantidade : Nat
  precoUnitario : ℚ
  subtotal : ℚ
deriving DecidableEq, Repr

/-- Order.prototype.podeCancelar (src/unnamed/part_004). -/
def podeCancelar (o : Order) : Bool :=
  ["pendente", "confirmado"].contains o.status

/-- Order.prototype.estaFinalizado (src/unnamed/part_004). -/
def estaFinalizado (o : Order) : Bool :=
  ["entregue", "cancelado"].contains o.status

/-- The error outcomes the controllers produce through the response helpers
(src/src/utils/response.js), keyed by the domain error they report. internal
is the catch-all branch that rolls back and answers with the generic 500. -/
inductive ApiError where
  | emptyCart
  | addressNotFound
  | noDeliveryAddress
  | productUnavailable (productName : String)
  | insufficientStock (productName : String) (disponivel : Int)
  | orderNotFound
  | orderNotCancellable
  | orderAlreadyFinalized
  | invalidStatus
  | productNotFound
  | categoryNotFound
  | forbidden
  | internal
deriving DecidableEq, Repr

/-- The tables touched by the order logic. The autoIncrement primary key of
orders is modelled by nextOrderId; categories holds the existing category
ids. -/
structure DBState where
  products : List Product
  carts : List Cart
  addresses : List Address
  orders : List Order
  orderItems : List OrderItem
  categories : List Nat
  nextOrderId : Nat
deriving DecidableEq, Repr

/-- Cart.findOne where userId (orderController.js, createOrder step 1). -/
def findCart (st : DBState) (userId : Nat) : Option Cart :=
  st.carts.find? (fun c => c.userId == userId)

/-- The produto include on a cart or order line: the product row joined by its
primary key. -/
def findProduct (st : DBState) (pid : Nat) : Option Product :=
  st.products.find? (fun p => p.id == pid)

/-- Product.decrement(estoque, by, where id) as issued by createOrder: an
unconditional UPDATE products SET estoque = estoque - amount WHERE id = pid,
with no stock guard in the WHERE clause. -/
def decrementEstoque (ps : List Product) (pid : Nat) (amount : Nat) : List Product :=
  ps.map (fun p => if p.id == pid then { p with estoque := p.estoque - (amount : Int) } else p)

/-- Product.increment(estoque, by, where id) as issued by cancelOrder. -/
def incrementEstoque (ps : List Product) (pid : Nat) (amount : Nat) : List Product :=
  ps.map (fun p => if p.id == pid then { p with estoque := p.estoque + (amount : Int) } else p)

/-- One validated line of the order under assembly: the itensValidos entries
accumulated by createOrder (productId, quantidade, precoUnitario, subtotal). -/
structure ItemValido where
  productId : Nat
  quantidade : Nat
  precoUnitario : ℚ
  subtotal : ℚ
deriving DecidableEq, Repr

/-- The per-line validation loop of createOrder (orderController.js): each cart
line, in cart order, has its joined product checked for activity and then for
stock sufficiency, and on success contributes a snapshot entry; the loop stops
at the first failing check. A broken produto join (no product row) would make
the JS throw, which the catch-block maps to the internal error. -/
def validarItens (st : DBState) : List CartItem → Except ApiError (List ItemValido)
  | [] => .ok []
  | item :: rest =>
    match findProduct st item.productId with
    | none => .error .internal
    | some product =>
      if !product.ativo then .error (.productUnavailable product.nome)
      else if product.estoque < (item.quantidade : Int) then
        .error (.insufficientStock product.nome product.estoque)
      else
        match validarItens st rest with
        | .error e => .error e
        | .ok restValidos =>
          .ok ({ productId := product.id, quantidade := item.quantidade,
                 precoUnitario := getPrecoFinal product,
                 subtotal := getPrecoFinal product * (item.quantidade : ℚ) } :: restValidos)

/-- The running valorTotal accumulated by the validation loop: the sum of the
subtotals of the validated lines. -/
def valorTotalOf (itens : List ItemValido) : ℚ :=
  (itens.map ItemValido.subtotal).sum

/-- parseFloat(valorTotal.toFixed(2)): rounding half-up to 2 decimal places on
the exact-rational model of JS numbers. -/
def round2 (q : ℚ) : ℚ :=
  (⌊q * 100 + 1 / 2⌋ : ℚ) / 100

/-- Order.create with the Sequelize model validation of src/unnamed/part_004:
valorTotal has validate min 0.01, and a violation raises, which the
controller's catch turns into the internal error and a rollback. -/
def orderCreate (o : Order) : Except ApiError Order :=
  if (1 : ℚ) / 100 ≤ o.valorTotal then .ok o else .error .internal

/-- OrderItem.create (src/src/models/OrderItem.js): the model validations
(quantidade min 1, precoUnitario min 0.01, subtotal min 0.01) run first, then
the beforeCreate hook recomputes subtotal as quantidade * precoUnitario. -/
def orderItemCreate (oi : OrderItem) : Except ApiError OrderItem :=
  if 1 ≤ oi.quantidade ∧ (1 : ℚ) / 100 ≤ oi.precoUnitario ∧ (1 : ℚ) / 100 ≤ oi.subtotal then
    .ok { oi with subtotal := (oi.quantidade : ℚ) * oi.precoUnitario }
  else .error .internal

/-- Delivery-address resolution in createOrder (orderController.js). The JS
test `if (enderecoId)` is a truthiness test: an absent id, like an id equal
to 0, selects the principal-address branch. -/
def resolveEndereco (st : DBState) (userId : Nat) (enderecoId : Option Nat) :
    Except ApiError Address :=
  if enderecoId.getD 0 != 0 then
    match st.addresses.find? (fun a => a.id == enderecoId.getD 0 && a.userId == userId) with
    | none => .error .addressNotFound
    | some a => .ok a
  else
    match st.addresses.find? (fun a => a.userId == userId && a.principal) with
    | none => .error .noDeliveryAddress
    | some a => .ok a

/-- The order-item creation and stock-update loop of createOrder: for each
validated line, OrderItem.create inside the transaction followed by the
unconditional stock decrement, threading the transaction state. -/
def criarItens (orderId : Nat) : List ItemValido → DBState → Except ApiError DBState
  | [], st => .ok st
  | it :: rest, st =>
    let novoItem : OrderItem :=
      { orderId := orderId, productId := it.productId,
        quantidade := it.quantidade, precoUnitario := it.precoUnitario,
        subtotal := it.subtotal }
    match orderItemCreate novoItem with
    | .error e => .error e
    | .ok oi =>
      criarItens orderId rest
        { st with orderItems := st.orderItems ++ [oi],
                  products := decrementEstoque st.products it.productId it.quantidade }

/-- The request body of POST /api/orders together with the authenticated
user. -/
structure CreateOrderReq where
  userId : Nat
  enderecoId : Option Nat
  observacoes : Option String
deriving DecidableEq, Repr

/-- The object literal createOrder hands to Order.create: status pendente, the
rounded total, the address snapshot and the request notes. -/
def pedidoNovo (req : CreateOrderReq) (st : DBState) (endereco : Address)
    (itens : List ItemValido) : Order :=
  { id := st.nextOrderId, consumidorId := req.userId, status := "pendente",
    valorTotal := round2 (valorTotalOf itens), enderecoEntrega := endereco,
    observacoes := req.observacoes, dataEntregaPrevista := none,
    dataEntregaRealizada := none }

/-- The body of createOrder (orderController.js) as it runs inside the
transaction: cart lookup and emptiness check, address resolution, the
validation loop, Order.create, the item/stock loop, and the cart clear.
Every .error result is a path on which the controller rolls back. -/
def createOrderBody (req : CreateOrderReq) (st : DBState) : Except ApiError (Order × DBState) :=
  match findCart st req.userId with
  | none => .error .emptyCart
  | some cart =>
    if cart.itens.isEmpty then .error .emptyCart
    else
      match resolveEndereco st req.userId req.enderecoId with
      | .error e => .error e
      | .ok endereco =>
        match validarItens st cart.itens with
        | .error e => .error e
        | .ok itensValidos =>
          match orderCreate (pedidoNovo req st endereco itensValidos) with
          | .error e => .error e
          | .ok order =>
            match criarItens order.id itensValidos
                { st with orders := st.orders ++ [order],
                          nextOrderId := st.nextOrderId + 1 } with
            | .error e => .error e
            | .ok st2 =>
              .ok (order, { st2 with
                carts := st2.carts.map
                  (fun c => if c.id == cart.id then { c with itens := [] } else c) })

/-- createOrder with its transaction wrapper: the response plus the state left
behind. On every error path the transaction is rolled back, so the pre-call
state is what remains observable. -/
def createOrder (req : CreateOrderReq) (st : DBState) : Except ApiError Order × DBState :=
  match createOrderBody req st with
  | .ok (o, st') => (.ok o, st')
  | .error e => (.error e, st)

/-- The body of cancelOrder (orderController.js): load the order with its
itens by id and owner, guard with podeCancelar, then restore stock for every
line and set the status to cancelado. -/
def cancelOrderBody (orderId userId : Nat) (st : DBState) : Except ApiError (Order × DBState) :=
  match st.orders.find? (fun o => o.id == orderId && o.consumidorId == userId) with
  | none => .error .orderNotFound
  | some order =>
    if !podeCancelar order then .error .orderNotCancellable
    else
      .ok ({ order with status := "cancelado" },
        { st with
          products := (st.orderItems.filter (fun oi => oi.orderId == orderId)).foldl
            (fun ps oi => incrementEstoque ps oi.productId oi.quantidade) st.products,
          orders := st.orders.map
            (fun o => if o.id == orderId then { o with status := "cancelado" } else o) })

/-- cancelOrder with its transaction wrapper. -/
def cancelOrder (orderId userId : Nat) (st : DBState) : Except ApiError Order × DBState :=
  match cancelOrderBody orderId userId st with
  | .ok (o, st') => (.ok o, st')
  | .error e => (.error e, st)

/-- The validStatuses whitelist of updateOrderStatus. -/
def validStatuses : List String :=
  ["confirmado", "preparando", "enviado", "entregue"]

/-- The required produto include of updateOrderStatus: the order must contain
at least one item whose product belongs to the calling producer. -/
def temItemDoProdutor (st : DBState) (orderId produtorId : Nat) : Bool :=
  st.orderItems.any (fun oi => oi.orderId == orderId &&
    (match findProduct st oi.productId with
     | some p => p.produtorId == produtorId
     | none => false))

/-- updateOrderStatus (orderController.js): whitelist check, order lookup
restricted to the producer's items, estaFinalizado guard, then the update,
stamping dataEntregaRealizada when the target is entregue. now is the clock
value used for new Date(). -/
def updateOrderStatus (orderId : Nat) (status : String) (produtorId : Nat) (now : Nat)
    (st : DBState) : Except ApiError Order × DBState :=
  if !validStatuses.contains status then (.error .invalidStatus, st)
  else
    match st.orders.find? (fun o => o.id == orderId) with
    | none => (.error .orderNotFound, st)
    | some order =>
      if !temItemDoProdutor st orderId produtorId then (.error .orderNotFound, st)
      else if estaFinalizado order then (.error .orderAlreadyFinalized, st)
      else
        let updated := if status == "entregue"
          then { order with status := status, dataEntregaRealizada := some now }
          else { order with status := status }
        (.ok updated,
         { st with orders := st.orders.map (fun o => if o.id == orderId then updated else o) })

/-- The request body of PUT /api/addresses/:id: each field is present or
absent; complemento can additionally be set to null. -/
structure UpdateAddressReq where
  rua : Option String
  numero : Option String
  complemento : Option (Option String)
  bairro : Option String
  cidade : Option String
  estado : Option String
  cep : Option String
  principal : Option Bool
deriving DecidableEq, Repr

/-- The field-wise updateData object built by updateAddress
(src/src/controllers/addressController.js): provided fields overwrite, estado
is uppercased. -/
def applyAddressUpdate (a : Address) (r : UpdateAddressReq) : Address :=
  { a with
    rua := r.rua.getD a.rua,
    numero := r.numero.getD a.numero,
    complemento := r.complemento.getD a.complemento,
    bairro := r.bairro.getD a.bairro,
    cidade := r.cidade.getD a.cidade,
    estado := (r.estado.map String.toUpper).getD a.estado,
    cep := r.cep.getD a.cep,
    principal := r.principal.getD a.principal }

/-- updateAddress (src/src/controllers/addressController.js): lookup by
primary key, ownership check, the clear-other-principals bulk update when
promoting to principal, then the row update. -/
def updateAddress (addressId userId : Nat) (r : UpdateAddressReq) (st : DBState) :
    Except ApiError Address × DBState :=
  match st.addresses.find? (fun a => a.id == addressId) with
  | none => (.error .addressNotFound, st)
  | some address =>
    if address.userId != userId then (.error .forbidden, st)
    else
      let semPrincipais :=
        if r.principal.getD false && !address.principal then
          st.addresses.map
            (fun a => if a.userId == userId then { a with principal := false } else a)
        else st.addresses
      let atualizadas :=
        semPrincipais.map (fun a => if a.id == addressId then applyAddressUpdate a r else a)
      (.ok (applyAddressUpdate address r), { st with addresses := atualizadas })

/-- The request body of PUT /api/products/:id. -/
structure UpdateProductReq where
  nome : Option String
  descricao : Option (Option String)
  preco : Option ℚ
  unidadeMedida : Option String
  estoque : Option Int
  categoryId : Option Nat
  imagemUrl : Option (Option String)
  promocao : Option Bool
  percentualDesconto : Option (Option Nat)
deriving DecidableEq, Repr

/-- The updateData object built by updateProduct
(src/src/controllers/productController.js): provided fields overwrite;
providing promocao also rewrites percentualDesconto, setting it to null when
promocao is false and to the provided value (an undefined value leaves the
column alone) when promocao is true. -/
def applyProductUpdate (p : Product) (r : UpdateProductReq) : Product :=
  { p with
    nome := r.nome.getD p.nome,
    descricao := r.descricao.getD p.descricao,
    preco := r.preco.getD p.preco,
    unidadeMedida := r.unidadeMedida.getD p.unidadeMedida,
    estoque := r.estoque.getD p.estoque,
    categoryId := r.categoryId.getD p.categoryId,
    imagemUrl := r.imagemUrl.getD p.imagemUrl,
    promocao := r.promocao.getD p.promocao,
    percentualDesconto :=
      match r.promocao with
      | some true => (r.percentualDesconto.getD p.percentualDesconto)
      | some false => none
      | none => p.percentualDesconto }

/-- The category existence check of updateProduct: a truthy categoryId must
name an existing category. -/
def categoriaAusente (st : DBState) (rcid : Option Nat) : Bool :=
  match rcid with
  | some cid => cid != 0 && !(st.categories.contains cid)
  | none => false

/-- updateProduct (src/src/controllers/productController.js): lookup by
primary key, ownership check, category existence check for a truthy
categoryId, then the row update. -/
def updateProduct (productId userId : Nat) (r : UpdateProductReq) (st : DBState) :
    Except ApiError Product × DBState :=
  match findProduct st productId with
  | none => (.error .productNotFound, st)
  | some product =>
    if product.produtorId != userId then (.error .forbidden, st)
    else if categoriaAusente st r.categoryId then (.error .categoryNotFound, st)
    else
      let atualizados :=
        st.products.map (fun p => if p.id == productId then applyProductUpdate p r else p)
      (.ok (applyProductUpdate product r), { st with products := atualizados })

/-- Classification of a single cart line by the createOrder validation loop:
the first failing check for that line, if any (broken join, inactive product,
then insufficient stock). -/
def lineError (st : DBState) (item : CartItem) : Option ApiError :=
  match findProduct st item.productId with
  | none => some .internal
  | some product =>
    if !product.ativo then some (.productUnavailable product.nome)
    else if product.estoque < (item.quantidade : Int) then
      some (.insufficientStock product.nome product.estoque)
    else none

/-- The error component of a validation outcome. -/
def errOf {α : Type} : Except ApiError α → Option ApiError
  | .error e => some e
  | .ok _ => none

/-! Derived characterizations of the definitions above, used to state and
prove the theorems. -/

/-- The OrderItem row that createOrder persists for one validated line: the
literal handed to OrderItem.create, with the subtotal recomputed by the
beforeCreate hook. -/
def mkItem (orderId : Nat) (it : ItemValido) : OrderItem :=
  { orderId := orderId, productId := it.productId, quantidade := it.quantidade,
    precoUnitario := it.precoUnitario,
    subtotal := (it.quantidade : ℚ) * it.precoUnitario }

/-- Net stock delta that a list of (productId, quantidade) pairs applies to
one product id. -/
def sumPairs (L : List (Nat × Nat)) (pid : Nat) : Int :=
  (L.map (fun x => if x.1 == pid then (x.2 : Int) else 0)).sum

/-- Pair view of validated lines. -/
def pairsOfItens (itens : List ItemValido) : List (Nat × Nat) :=
  itens.map (fun it => (it.productId, it.quantidade))

theorem sumPairs_nil (pid : Nat) : sumPairs [] pid = 0 := rfl

theorem sumPairs_cons (x : Nat × Nat) (L : List (Nat × Nat)) (pid : Nat) :
    sumPairs (x :: L) pid = (if x.1 == pid then (x.2 : Int) else 0) + sumPairs L pid := by
  simp [sumPairs]

theorem foldl_decrement_eq_map (L : List (Nat × Nat)) (ps : List Product) :
    L.foldl (fun a x => decrementEstoque a x.1 x.2) ps
      = ps.map (fun p => { p with estoque := p.estoque - sumPairs L p.id }) := by
  induction L generalizing ps with
  | nil =>
    simp only [List.foldl_nil, sumPairs_nil, sub_zero]
    exact (List.map_id ps).symm
  | cons x L ih =>
    rw [List.foldl_cons, ih, decrementEstoque, List.map_map]
    congr 1
    funext p
    by_cases h : (p.id == x.1) = true
    · have hid : p.id = x.1 := by simpa using h
      simp only [Function.comp, h, if_pos, sumPairs_cons, hid, beq_self_eq_true, if_true]
      simp only [Product.mk.injEq, true_and, and_true]
      omega
    · have hid : ¬ p.id = x.1 := by simpa using h
      have hid' : (x.1 == p.id) = false := by simp [beq_iff_eq]; omega
      simp only [Function.comp, h, if_neg, Bool.false_eq_true, not_false_iff, sumPairs_cons,
        hid', if_false, zero_add]

theorem foldl_increment_eq_map (L : List (Nat × Nat)) (ps : List Product) :
    L.foldl (fun a x => incrementEstoque a x.1 x.2) ps
      = ps.map (fun p => { p with estoque := p.estoque + sumPairs L p.id }) := by
  induction L generalizing ps with
  | nil =>
    simp only [List.foldl_nil, sumPairs_nil, add_zero]
    exact (List.map_id ps).symm
  | cons x L ih =>
    rw [List.foldl_cons, ih, incrementEstoque, List.map_map]
    congr 1
    funext p
    by_cases h : (p.id == x.1) = true
    · have hid : p.id = x.1 := by simpa using h
      simp only [Function.comp, h, if_pos, sumPairs_cons, hid, beq_self_eq_true, if_true]
      simp only [Product.mk.injEq, true_and, and_true]
      omega
    · have hid : ¬ p.id = x.1 := by simpa using h
      have hid' : (x.1 == p.id) = false := by simp [beq_iff_eq]; omega
      simp only [Function.comp, h, if_neg, Bool.false_eq_true, not_false_iff, sumPairs_cons,
        hid', if_false, zero_add]

theorem increment_undoes_decrement (L : List (Nat × Nat)) (ps : List Product) :
    L.foldl (fun a x => incrementEstoque a x.1 x.2)
      (L.foldl (fun a x => decrementEstoque a x.1 x.2) ps) = ps := by
  rw [foldl_decrement_eq_map, foldl_increment_eq_map, List.map_map]
  calc ps.map ((fun p : Product => { p with estoque := p.estoque + sumPairs L p.id })
          ∘ (fun p : Product => { p with estoque := p.estoque - sumPairs L p.id }))
      = ps.map (fun p => p) := by
        apply List.map_congr_left
        intro p _
        simp [Function.comp]
    _ = ps := List.map_id ps

theorem round2_eq (q : ℚ) (n : ℤ) (h1 : (n : ℚ) ≤ q * 100 + 1 / 2) (h2 : q * 100 + 1 / 2 < n + 1) :
    round2 q = (n : ℚ) / 100 := by
  rw [round2, Int.floor_eq_iff.mpr ⟨h1, h2⟩]

theorem orderItemCreate_ok_inv (oi oi' : OrderItem) (h : orderItemCreate oi = .ok oi') :
    oi' = { oi with subtotal := (oi.quantidade : ℚ) * oi.precoUnitario }
      ∧ 1 ≤ oi.quantidade ∧ (1 : ℚ) / 100 ≤ oi.precoUnitario ∧ (1 : ℚ) / 100 ≤ oi.subtotal := by
  rw [orderItemCreate] at h
  split at h
  · cases h
    exact ⟨rfl, by assumption⟩
  · cases h

theorem orderCreate_ok_inv (o o' : Order) (h : orderCreate o = .ok o') :
    o' = o ∧ (1 : ℚ) / 100 ≤ o.valorTotal := by
  rw [orderCreate] at h
  split at h
  · cases h
    exact ⟨rfl, by assumption⟩
  · cases h

theorem criarItens_ok_inv (orderId : Nat) (itens : List ItemValido) (st st' : DBState)
    (h : criarItens orderId itens st = .ok st') :
    st' = { st with
      orderItems := st.orderItems ++ itens.map (mkItem orderId),
      products := (pairsOfItens itens).foldl
        (fun a x => decrementEstoque a x.1 x.2) st.products } := by
  induction itens generalizing st with
  | nil =>
    rw [criarItens] at h
    cases h
    simp [pairsOfItens]
  | cons it rest ih =>
    rw [criarItens] at h
    split at h
    · simp at h
    · rename_i oi heq
      obtain ⟨hoi, -⟩ := orderItemCreate_ok_inv _ _ heq
      subst hoi
      rw [ih _ h]
      simp [pairsOfItens, mkItem, List.append_assoc]

/-- Relation between a cart line and the validated entry the loop builds for
it. -/
def ItemValidoRel (st : DBState) (item : CartItem) (v : ItemValido) : Prop :=
  ∃ p, findProduct st item.productId = some p ∧ p.ativo = true ∧
    (item.quantidade : Int) ≤ p.estoque ∧
    v = { productId := p.id, quantidade := item.quantidade,
          precoUnitario := getPrecoFinal p,
          subtotal := getPrecoFinal p * (item.quantidade : ℚ) }

theorem validarItens_ok_inv (st : DBState) (itens : List CartItem) (valid : List ItemValido)
    (h : validarItens st itens = .ok valid) :
    List.Forall₂ (ItemValidoRel st) itens valid := by
  induction itens generalizing valid with
  | nil =>
    rw [validarItens] at h
    cases h
    exact .nil
  | cons item rest ih =>
    rw [validarItens] at h
    cases hf : findProduct st item.productId with
    | none => rw [hf] at h; cases h
    | some product =>
      rw [hf] at h
      by_cases ha : product.ativo = true
      case neg => simp [ha] at h
      by_cases hs : product.estoque < (item.quantidade : Int)
      case pos => simp [ha, hs] at h
      cases hr : validarItens st rest with
      | error e => rw [hr] at h; simp [ha, hs] at h
      | ok restValidos =>
        rw [hr] at h
        simp only [ha, hs, Bool.not_true, Bool.false_eq_true, if_false, if_neg] at h
        cases h
        exact .cons ⟨product, hf, ha, by omega, rfl⟩ (ih _ hr)

/-- The state a committed createOrder leaves behind, in closed form. -/
def posCriacao (st : DBState) (cartId : Nat) (order : Order) (itens : List ItemValido) : DBState :=
  { st with
    orders := st.orders ++ [order],
    nextOrderId := st.nextOrderId + 1,
    orderItems := st.orderItems ++ itens.map (mkItem order.id),
    products := (pairsOfItens itens).foldl (fun a x => decrementEstoque a x.1 x.2) st.products,
    carts := st.carts.map (fun c => if c.id == cartId then { c with itens := [] } else c) }

theorem createOrderBody_ok_inv (req : CreateOrderReq) (st : DBState) (order : Order)
    (st' : DBState) (h : createOrderBody req st = .ok (order, st')) :
    ∃ cart endereco itens,
      findCart st req.userId = some cart ∧
      cart.itens.isEmpty = false ∧
      resolveEndereco st req.userId req.enderecoId = .ok endereco ∧
      validarItens st cart.itens = .ok itens ∧
      (1 : ℚ) / 100 ≤ round2 (valorTotalOf itens) ∧
      order = pedidoNovo req st endereco itens ∧
      st' = posCriacao st cart.id order itens := by
  rw [createOrderBody] at h
  split at h
  · cases h
  rename_i cart hc
  split at h
  · cases h
  rename_i he
  split at h
  · cases h
  rename_i endereco hr
  split at h
  · cases h
  rename_i itens hv
  split at h
  · cases h
  rename_i order2 ho
  split at h
  · cases h
  rename_i st2 hcr
  cases h
  obtain ⟨ho2, hmin⟩ := orderCreate_ok_inv _ _ ho
  subst ho2
  refine ⟨cart, endereco, itens, hc, ?_, hr, hv, ?_, rfl, ?_⟩
  · simpa using he
  · simpa [pedidoNovo] using hmin
  · rw [criarItens_ok_inv _ _ _ _ hcr]
    simp [posCriacao]

theorem createOrder_ok_to_body (req : CreateOrderReq) (st : DBState) (order : Order)
    (st' : DBState) (h : createOrder req st = (.ok order, st')) :
    createOrderBody req st = .ok (order, st') := by
  rw [createOrder] at h
  cases hb : createOrderBody req st with
  | error e => rw [hb] at h; simp at h
  | ok p =>
    obtain ⟨p1, p2⟩ := p
    rw [hb] at h
    simp only [Prod.mk.injEq, Except.ok.injEq] at h
    rw [h.1, h.2]

theorem createOrder_error_state (req : CreateOrderReq) (st : DBState) (e : ApiError)
    (st' : DBState) (h : createOrder req st = (.error e, st')) :
    st' = st ∧ createOrderBody req st = .error e := by
  rw [createOrder] at h
  cases hb : createOrderBody req st with
  | error e2 =>
    rw [hb] at h
    simp only [Prod.mk.injEq, Except.error.injEq] at h
    exact ⟨h.2.symm, by rw [h.1]⟩
  | ok p =>
    obtain ⟨p1, p2⟩ := p
    rw [hb] at h
    simp at h

/-! Concrete rows used by witness and counterexample theorems. -/

/-- A plain active product: id 1, price 5.00, stock 10, no promotion. -/
def produtoBase : Product :=
  { id := 1, nome := "Tomate", descricao := none, preco := 5, unidadeMedida := "kg",
    estoque := 10, imagemUrl := none, categoryId := 1, produtorId := 7, ativo := true,
    promocao := false, percentualDesconto := none }

/-- The buyer's principal address. -/
def enderecoBase : Address :=
  { id := 1, userId := 3, rua := "Rua A", numero := "10", complemento := none,
    bairro := "Centro", cidade := "Sao Paulo", estado := "SP", cep := "01000-000",
    principal := true }

/-- A state in which buyer 3 has no cart row at all. -/
def estadoSemCarrinho : DBState :=
  { products := [produtoBase], carts := [], addresses := [enderecoBase], orders := [],
    orderItems := [], categories := [1], nextOrderId := 1 }

/-- The plain order request of buyer 3: default address, no notes. -/
def reqComprador : CreateOrderReq := { userId := 3, enderecoId := none, observacoes := none }

/-- C1. Order creation is all-or-nothing: whenever createOrder answers an
error, whatever step failed, the observable state is exactly the pre-call
state: no Order row, no OrderLine row, no stock decrement and no cart-line
deletion survive, and the originating error is the surfaced response. -/
theorem createOrder_failure_is_rolled_back (req : CreateOrderReq) (st : DBState)
    (e : ApiError) (st' : DBState) (h : createOrder req st = (.error e, st')) :
    st' = st :=
  (createOrder_error_state req st e st' h).1

/-- Witness for C1 at a concrete failing attempt. -/
theorem createOrder_failure_is_rolled_back_witness :
    (createOrder reqComprador estadoSemCarrinho).2 = estadoSemCarrinho :=
  createOrder_failure_is_rolled_back reqComprador estadoSemCarrinho ApiError.emptyCart
    (createOrder reqComprador estadoSemCarrinho).2 rfl

/-- C10. A buyer with no cart row at all is treated the same as a buyer whose
cart has no lines: createOrder answers the empty-cart error and the state is
untouched in both situations. -/
theorem missing_cart_treated_as_empty (req : CreateOrderReq) (st : DBState) :
    (findCart st req.userId = none → createOrder req st = (.error .emptyCart, st))
    ∧ (∀ cart, findCart st req.userId = some cart → cart.itens = [] →
        createOrder req st = (.error .emptyCart, st)) := by
  constructor
  · intro hc
    simp [createOrder, createOrderBody, hc]
  · intro cart hc hitens
    simp [createOrder, createOrderBody, hc, hitens]

/-- Witness for C10: buyer 3 has no cart row in estadoSemCarrinho. -/
theorem missing_cart_treated_as_empty_witness :
    createOrder reqComprador estadoSemCarrinho
      = (.error .emptyCart, estadoSemCarrinho) :=
  (missing_cart_treated_as_empty reqComprador estadoSemCarrinho).1 rfl

/-- C7. podeCancelar holds exactly for status pendente or confirmado, and
cancelling an order in any other status answers OrderNotCancellableError with
the state (orders and every product's stock) untouched. -/
theorem cancelOrder_guarded_by_podeCancelar :
    (∀ o : Order, podeCancelar o = true ↔ (o.status = "pendente" ∨ o.status = "confirmado"))
    ∧ (∀ (orderId userId : Nat) (st : DBState) (order : Order),
        st.orders.find? (fun o => o.id == orderId && o.consumidorId == userId) = some order →
        podeCancelar order = false →
        cancelOrder orderId userId st = (.error .orderNotCancellable, st)) := by
  constructor
  · intro o
    simp [podeCancelar, List.contains_cons]
  · intro orderId userId st order hfind hguard
    simp [cancelOrder, cancelOrderBody, hfind, hguard]

/-- A delivered order of buyer 3. -/
def pedidoEntregue : Order :=
  { id := 4, consumidorId := 3, status := "entregue", valorTotal := 5,
    enderecoEntrega := enderecoBase, observacoes := none, dataEntregaPrevista := none,
    dataEntregaRealizada := some 50 }

/-- A state holding only the delivered order. -/
def estadoEntregue : DBState :=
  { products := [produtoBase], carts := [], addresses := [enderecoBase],
    orders := [pedidoEntregue], orderItems := [], categories := [1], nextOrderId := 5 }

/-- Witness for C7: cancelling the delivered order is rejected and nothing
changes. -/
theorem cancelOrder_guarded_by_podeCancelar_witness :
    cancelOrder 4 3 estadoEntregue = (.error .orderNotCancellable, estadoEntregue) :=
  cancelOrder_guarded_by_podeCancelar.2 4 3 estadoEntregue pedidoEntregue rfl rfl

/-- C4 (amended). Validation is fail-fast per line in cart order: the loop
inspects each line in sequence, checking product activity before stock within
one line, so the error produced for a cart with several violations is that of
the earliest violating line, not of all activity checks before all stock
checks. -/
theorem validarItens_first_violation (st : DBState) (itens : List CartItem) :
    errOf (validarItens st itens) = (itens.filterMap (lineError st)).head? := by
  induction itens with
  | nil => rfl
  | cons item rest ih =>
    rw [validarItens, List.filterMap_cons]
    cases hf : findProduct st item.productId with
    | none => simp [lineError, hf, errOf]
    | some product =>
      by_cases ha : product.ativo = true
      case neg => simp [lineError, hf, ha, errOf]
      by_cases hs : product.estoque < (item.quantidade : Int)
      case pos => simp [lineError, hf, ha, hs, errOf]
      have hl : lineError st item = none := by simp [lineError, hf, ha, hs]
      rw [hl]
      rw [← ih]
      cases hr : validarItens st rest with
      | error e => simp [hf, ha, hs, hr, errOf]
      | ok restValidos => simp [hf, ha, hs, hr, errOf]

/-- An active product named A with empty stock. -/
def produtoSemEstoque : Product := { produtoBase with nome := "A", estoque := 0 }

/-- An inactive product named B. -/
def produtoInativo : Product :=
  { produtoBase with id := 2, nome := "B", preco := 7/2, ativo := false }

/-- A cart whose first line has the out-of-stock product and whose second line
has the inactive product. -/
def estadoDuasViolacoes : DBState :=
  { products := [produtoSemEstoque, produtoInativo],
    carts := [{ id := 1, userId := 3,
                itens := [{ productId := 1, quantidade := 1 },
                          { productId := 2, quantidade := 1 }] }],
    addresses := [enderecoBase], orders := [], orderItems := [], categories := [1],
    nextOrderId := 1 }

/-- Counterexample for C4 as stated: with the stock violation on line 1 and the
activity violation on line 2, the claimed ordering (all activity checks before
all stock checks) demands ProductUnavailableError for B, but the code answers
InsufficientStockError for A. -/
theorem interleaved_validation_counterexample :
    (createOrder reqComprador estadoDuasViolacoes).1
        = Except.error (ApiError.insufficientStock "A" 0)
    ∧ (createOrder reqComprador estadoDuasViolacoes).1
        ≠ Except.error (ApiError.productUnavailable "B") := by
  constructor
  · rfl
  · rw [show (createOrder reqComprador estadoDuasViolacoes).1
        = Except.error (ApiError.insufficientStock "A" 0) from rfl]
    simp

/-- A cart of buyer 3 holding two lines of produtoBase. -/
def carrinhoCheio : Cart :=
  { id := 1, userId := 3, itens := [{ productId := 1, quantidade := 2 }] }

/-- A state where buyer 3 has a non-empty cart and one principal address. -/
def estadoCarrinhoCheio : DBState :=
  { products := [produtoBase], carts := [carrinhoCheio], addresses := [enderecoBase],
    orders := [], orderItems := [], categories := [1], nextOrderId := 1 }

/-- C9 (amended). Delivery-address resolution during order creation, on a cart
that passes the emptiness check: a supplied nonzero address id must belong to
the buyer, else the attempt fails with AddressNotFoundError; an absent id
falls back to the buyer's principal address, whose absence fails with
NoDeliveryAddressError; on success the resolved address value is copied into
the order, and address updates never touch stored orders, so the snapshot is
immune to later edits. A supplied id of 0 is treated as absent, by JS
truthiness. -/
theorem createOrder_address_resolution (req : CreateOrderReq) (st : DBState)
    (cart : Cart) (hc : findCart st req.userId = some cart)
    (hne : cart.itens.isEmpty = false) :
    (∀ eid, req.enderecoId = some eid → eid ≠ 0 →
      st.addresses.find? (fun a => a.id == eid && a.userId == req.userId) = none →
      createOrder req st = (.error .addressNotFound, st))
    ∧ (req.enderecoId = none →
      st.addresses.find? (fun a => a.userId == req.userId && a.principal) = none →
      createOrder req st = (.error .noDeliveryAddress, st))
    ∧ (∀ order st' endereco, createOrder req st = (.ok order, st') →
      resolveEndereco st req.userId req.enderecoId = .ok endereco →
      order.enderecoEntrega = endereco)
    ∧ (∀ (st₁ : DBState) (aid uid : Nat) (r : UpdateAddressReq),
        ((updateAddress aid uid r st₁).2).orders = st₁.orders) := by
  refine ⟨?_, ?_, ?_, ?_⟩
  · intro eid he hnz hfind
    have hres : resolveEndereco st req.userId req.enderecoId = .error .addressNotFound := by
      simp [resolveEndereco, he, hnz, hfind]
    simp [createOrder, createOrderBody, hc, hne, hres]
  · intro he hfind
    have hres : resolveEndereco st req.userId req.enderecoId = .error .noDeliveryAddress := by
      simp [resolveEndereco, he, hfind]
    simp [createOrder, createOrderBody, hc, hne, hres]
  · intro order st' endereco hok hres
    obtain ⟨cart2, endereco2, itens, -, -, hres2, -, -, hord, -⟩ :=
      createOrderBody_ok_inv req st order st' (createOrder_ok_to_body req st order st' hok)
    rw [hres] at hres2
    cases hres2
    rw [hord]
    rfl
  · intro st₁ aid uid r
    rw [updateAddress]
    split
    · rfl
    · split
      · rfl
      · rfl

/-- Witness for C9: a supplied address id 99 owned by nobody is rejected with
the not-found error and the state is untouched. -/
theorem createOrder_address_resolution_witness :
    createOrder { userId := 3, enderecoId := some 99, observacoes := none }
        estadoCarrinhoCheio
      = (.error .addressNotFound, estadoCarrinhoCheio) :=
  (createOrder_address_resolution
      { userId := 3, enderecoId := some 99, observacoes := none }
      estadoCarrinhoCheio carrinhoCheio rfl rfl).1 99 rfl (by decide) rfl

/-- Counterexample for C9 as stated: buyer 3 supplies the explicit address id
0, which belongs to nobody, yet resolution does not fail with
AddressNotFoundError: the JS truthiness test routes id 0 to the
principal-address branch and resolution succeeds. -/
theorem endereco_zero_counterexample :
    estadoCarrinhoCheio.addresses.find? (fun a => a.id == 0 && a.userId == 3) = none
    ∧ resolveEndereco estadoCarrinhoCheio 3 (some 0) ≠ Except.error ApiError.addressNotFound
    ∧ resolveEndereco estadoCarrinhoCheio 3 (some 0) = Except.ok enderecoBase := by
  refine ⟨rfl, ?_, rfl⟩
  rw [show resolveEndereco estadoCarrinhoCheio 3 (some 0) = Except.ok enderecoBase from rfl]
  simp

/-- C8. updateOrderStatus accepts exactly confirmado, preparando, enviado and
entregue: any other target answers InvalidStatusError; a finalized order
(estaFinalizado: entregue or cancelado) answers OrderAlreadyFinalizedError;
a successful update stores the target status, stamps dataEntregaRealizada
exactly when the target is entregue, and succeeds for every non-finalized
current status, so no ordering among the four targets is enforced. -/
theorem updateOrderStatus_contract (orderId : Nat) (status : String) (produtorId now : Nat)
    (st : DBState) :
    (validStatuses.contains status = false →
      updateOrderStatus orderId status produtorId now st = (.error .invalidStatus, st))
    ∧ (∀ order, st.orders.find? (fun o => o.id == orderId) = some order →
        validStatuses.contains status = true →
        temItemDoProdutor st orderId produtorId = true →
        estaFinalizado order = true →
        updateOrderStatus orderId status produtorId now st
          = (.error .orderAlreadyFinalized, st))
    ∧ (∀ order, st.orders.find? (fun o => o.id == orderId) = some order →
        validStatuses.contains status = true →
        temItemDoProdutor st orderId produtorId = true →
        estaFinalizado order = false →
        ∃ o', updateOrderStatus orderId status produtorId now st
            = (.ok o', { st with orders :=
                              st.orders.map (fun o => if o.id == orderId then o' else o) })
          ∧ o'.status = status
          ∧ (status = "entregue" → o'.dataEntregaRealizada = some now)
          ∧ (status ≠ "entregue" → o'.dataEntregaRealizada = order.dataEntregaRealizada)) := by
  refine ⟨?_, ?_, ?_⟩
  · intro hvs
    have hvs' : ¬ status ∈ validStatuses := by simpa using hvs
    simp [updateOrderStatus, hvs']
  · intro order hfind hvs hitem hfin
    have hvs' : status ∈ validStatuses := by simpa using hvs
    simp [updateOrderStatus, hvs', hfind, hitem, hfin]
  · intro order hfind hvs hitem hfin
    have hvs' : status ∈ validStatuses := by simpa using hvs
    by_cases he : (status == "entregue") = true
    · refine ⟨{ order with status := status, dataEntregaRealizada := some now },
        ?_, rfl, fun _ => rfl, ?_⟩
      · simp [updateOrderStatus, hvs', hfind, hitem, hfin, he]
      · intro hne
        exact absurd (by simpa using he) hne
    · refine ⟨{ order with status := status }, ?_, rfl, ?_, fun _ => rfl⟩
      · simp [updateOrderStatus, hvs', hfind, hitem, hfin, he]
      · intro heq
        exact absurd (by simp [heq]) he

/-- A shipped (enviado) order of buyer 3 containing a line of producer 7's
product. -/
def pedidoEnviado : Order :=
  { id := 6, consumidorId := 3, status := "enviado", valorTotal := 5,
    enderecoEntrega := enderecoBase, observacoes := none, dataEntregaPrevista := none,
    dataEntregaRealizada := none }

/-- The line of pedidoEnviado. -/
def itemDoPedidoEnviado : OrderItem :=
  { orderId := 6, productId := 1, quantidade := 1, precoUnitario := 5, subtotal := 5 }

/-- A state holding the shipped order. -/
def estadoEnviado : DBState :=
  { products := [produtoBase], carts := [], addresses := [enderecoBase],
    orders := [pedidoEnviado], orderItems := [itemDoPedidoEnviado], categories := [1],
    nextOrderId := 7 }

/-- Witness for C8: producer 7 moves the shipped order backwards to
confirmado, which succeeds because no ordering among the four targets is
enforced. -/
theorem updateOrderStatus_contract_witness :
    ∃ o', updateOrderStatus 6 "confirmado" 7 99 estadoEnviado
        = (.ok o', { estadoEnviado with orders :=
                          estadoEnviado.orders.map (fun o => if o.id == 6 then o' else o) })
      ∧ o'.status = "confirmado"
      ∧ ("confirmado" = "entregue" → o'.dataEntregaRealizada = some 99)
      ∧ ("confirmado" ≠ "entregue" →
          o'.dataEntregaRealizada = pedidoEnviado.dataEntregaRealizada) :=
  (updateOrderStatus_contract 6 "confirmado" 7 99 estadoEnviado).2.2 pedidoEnviado
    rfl rfl rfl rfl

theorem findProduct_id (st : DBState) (pid : Nat) (p : Product)
    (h : findProduct st pid = some p) : p.id = pid := by
  have h2 := List.find?_some h
  simpa using h2

theorem posCriacao_lines (st : DBState) (cartId : Nat) (order : Order)
    (itens : List ItemValido)
    (hfresh : ∀ oi ∈ st.orderItems, oi.orderId ≠ order.id) :
    (posCriacao st cartId order itens).orderItems.filter
        (fun oi => oi.orderId == order.id) = itens.map (mkItem order.id) := by
  rw [posCriacao]
  rw [List.filter_append]
  have h1 : st.orderItems.filter (fun oi => oi.orderId == order.id) = [] := by
    rw [List.filter_eq_nil_iff]
    intro oi hoi
    simpa using hfresh oi hoi
  have h2 : (itens.map (mkItem order.id)).filter (fun oi => oi.orderId == order.id)
      = itens.map (mkItem order.id) := by
    rw [List.filter_eq_self]
    intro oi hoi
    obtain ⟨it, -, rfl⟩ := List.mem_map.mp hoi
    simp [mkItem]
  rw [h1, h2, List.nil_append]

theorem forall₂_subtotal (st : DBState) (itensC : List CartItem) (itens : List ItemValido)
    (h : List.Forall₂ (ItemValidoRel st) itensC itens) :
    ∀ it ∈ itens, it.subtotal = it.precoUnitario * (it.quantidade : ℚ) := by
  induction h with
  | nil => intro it hit; cases hit
  | cons hrel _ ih =>
    intro it hit
    rcases List.mem_cons.mp hit with rfl | hm
    · obtain ⟨p, -, -, -, rfl⟩ := hrel
      rfl
    · exact ih it hm

theorem forall₂_preco (st : DBState) (itensC : List CartItem) (itens : List ItemValido)
    (h : List.Forall₂ (ItemValidoRel st) itensC itens) :
    ∀ it ∈ itens, ∃ p, findProduct st it.productId = some p
        ∧ it.precoUnitario = getPrecoFinal p := by
  induction h with
  | nil => intro it hit; cases hit
  | cons hrel _ ih =>
    intro it hit
    rcases List.mem_cons.mp hit with rfl | hm
    · obtain ⟨p, hf, -, -, rfl⟩ := hrel
      refine ⟨p, ?_, rfl⟩
      have hpid := findProduct_id st _ p hf
      simpa [hpid] using hf
    · exact ih it hm

theorem forall₂_pairs (st : DBState) (itensC : List CartItem) (itens : List ItemValido)
    (h : List.Forall₂ (ItemValidoRel st) itensC itens) :
    pairsOfItens itens = itensC.map (fun item => (item.productId, item.quantidade)) := by
  induction h with
  | nil => rfl
  | cons hrel _ ih =>
    rename_i item v itensC2 itens2 _
    obtain ⟨p, hf, -, -, rfl⟩ := hrel
    have hpid := findProduct_id st _ p hf
    simp [pairsOfItens] at ih
    simp [pairsOfItens, hpid, ih]

theorem forall₂_stock_bound (st : DBState) (itensC : List CartItem) (itens : List ItemValido)
    (h : List.Forall₂ (ItemValidoRel st) itensC itens) :
    ∀ item ∈ itensC, ∃ p, findProduct st item.productId = some p
        ∧ (item.quantidade : Int) ≤ p.estoque := by
  induction h with
  | nil => intro item hmem; cases hmem
  | cons hrel _ ih =>
    intro item hmem
    rcases List.mem_cons.mp hmem with rfl | hm
    · obtain ⟨p, hf, -, hle, -⟩ := hrel
      exact ⟨p, hf, hle⟩
    · exact ih item hm

theorem sumPairs_eq_zero (L : List (Nat × Nat)) (pid : Nat)
    (h : ∀ x ∈ L, (x.1 == pid) = false) : sumPairs L pid = 0 := by
  rw [sumPairs]
  apply List.sum_eq_zero
  intro n hn
  obtain ⟨x, hx, rfl⟩ := List.mem_map.mp hn
  rw [h x hx, if_neg]
  simp

theorem sumPairs_le (items : List CartItem) (pid : Nat) (cap : Int)
    (hnodup : (items.map CartItem.productId).Nodup)
    (hcap : 0 ≤ cap)
    (hq : ∀ item ∈ items, item.productId = pid → (item.quantidade : Int) ≤ cap) :
    sumPairs (items.map fun item => (item.productId, item.quantidade)) pid ≤ cap := by
  induction items with
  | nil => simpa [sumPairs] using hcap
  | cons item rest ih =>
    rw [List.map_cons, sumPairs_cons]
    by_cases hi : (item.productId == pid) = true
    · have hpid : item.productId = pid := by simpa using hi
      have hzero : sumPairs (rest.map fun it => (it.productId, it.quantidade)) pid = 0 := by
        apply sumPairs_eq_zero
        intro x hx
        obtain ⟨item2, hitem2, rfl⟩ := List.mem_map.mp hx
        have hne : item2.productId ≠ pid := by
          intro hcontra
          have hmem : item.productId ∈ rest.map CartItem.productId := by
            rw [hpid, ← hcontra]
            exact List.mem_map.mpr ⟨item2, hitem2, rfl⟩
          exact (List.nodup_cons.mp hnodup).1 hmem
        simpa using hne
      rw [hzero, hi, if_pos rfl]
      simpa [add_zero] using hq item (List.mem_cons_self item rest) hpid
    · rw [if_neg (by simpa using hi), zero_add]
      exact ih (List.nodup_cons.mp hnodup).2
        (fun it hit hp => hq it (List.mem_cons_of_mem item hit) hp)

theorem find?_id_of_nodup (ps : List Product)
    (hids : (ps.map Product.id).Nodup) (p : Product) (hp : p ∈ ps) :
    ps.find? (fun q => q.id == p.id) = some p := by
  induction ps with
  | nil => cases hp
  | cons q rest ih =>
    rcases List.mem_cons.mp hp with rfl | hm
    · simp
    · have hq : (q.id == p.id) = false := by
        rw [beq_eq_false_iff_ne]
        intro hqp
        have hmem : q.id ∈ rest.map Product.id :=
          hqp ▸ List.mem_map.mpr ⟨p, hm, rfl⟩
        exact (List.nodup_cons.mp hids).1 hmem
      simp only [List.find?_cons, hq]
      exact ih (List.nodup_cons.mp hids).2 hm

/-- C2. For a successfully created order, every stored line satisfies
subtotal = quantidade * precoUnitario, and the order's valorTotal is the sum
of its lines' subtotals rounded half-up to 2 decimal places. -/
theorem createOrder_total_and_subtotals (req : CreateOrderReq) (st : DBState)
    (order : Order) (st' : DBState)
    (hfresh : ∀ oi ∈ st.orderItems, oi.orderId ≠ st.nextOrderId)
    (h : createOrder req st = (.ok order, st')) :
    (∀ oi ∈ st'.orderItems.filter (fun oi => oi.orderId == order.id),
        oi.subtotal = (oi.quantidade : ℚ) * oi.precoUnitario)
    ∧ order.valorTotal = round2 (((st'.orderItems.filter
          (fun oi => oi.orderId == order.id)).map OrderItem.subtotal).sum) := by
  obtain ⟨cart, endereco, itens, hc, hne, hres, hval, hmin, hord, hst⟩ :=
    createOrderBody_ok_inv req st order st' (createOrder_ok_to_body req st order st' h)
  have hid : order.id = st.nextOrderId := by rw [hord]; rfl
  have hfresh' : ∀ oi ∈ st.orderItems, oi.orderId ≠ order.id := by
    intro oi hoi
    rw [hid]
    exact hfresh oi hoi
  have hlines : st'.orderItems.filter (fun oi => oi.orderId == order.id)
      = itens.map (mkItem order.id) := by
    rw [hst]
    exact posCriacao_lines st cart.id order itens hfresh'
  constructor
  · intro oi hoi
    rw [hlines] at hoi
    obtain ⟨it, -, rfl⟩ := List.mem_map.mp hoi
    rfl
  · rw [hlines, hord]
    show round2 (valorTotalOf itens) = _
    have hsub := forall₂_subtotal st cart.itens itens
      (validarItens_ok_inv st cart.itens itens hval)
    rw [valorTotalOf, List.map_map]
    refine congrArg round2 (congrArg List.sum (List.map_congr_left ?_))
    intro it hit
    rw [hsub it hit]
    simp [mkItem, Function.comp, mul_comm]

/-- A second product priced 3.50. -/
def produtoQueijo : Product :=
  { produtoBase with id := 2, nome := "Queijo", preco := 7/2, estoque := 4 }

/-- The spec example cart: 2 of the 5.00 product and 1 of the 3.50 product. -/
def estadoExemplo : DBState :=
  { products := [produtoBase, produtoQueijo],
    carts := [{ id := 1, userId := 3,
                itens := [{ productId := 1, quantidade := 2 },
                          { productId := 2, quantidade := 1 }] }],
    addresses := [enderecoBase], orders := [], orderItems := [], categories := [1],
    nextOrderId := 5 }

/-- The order the example cart produces: total 13.50. -/
def pedidoExemplo : Order :=
  { id := 5, consumidorId := 3, status := "pendente", valorTotal := 27/2,
    enderecoEntrega := enderecoBase, observacoes := none, dataEntregaPrevista := none,
    dataEntregaRealizada := none }

/-- The state after the example order commits: subtotals 10.00 and 3.50,
stocks decremented, cart cleared. -/
def estadoExemploFinal : DBState :=
  { products := [{ produtoBase with estoque := 8 }, { produtoQueijo with estoque := 3 }],
    carts := [{ id := 1, userId := 3, itens := [] }],
    addresses := [enderecoBase],
    orders := [pedidoExemplo],
    orderItems := [{ orderId := 5, productId := 1, quantidade := 2,
                     precoUnitario := 5, subtotal := 10 },
                   { orderId := 5, productId := 2, quantidade := 1,
                     precoUnitario := 7/2, subtotal := 7/2 }],
    categories := [1], nextOrderId := 6 }

theorem round2_exemplo : round2 (27/2 : ℚ) = 27/2 := by
  rw [round2_eq (27/2) 1350 (by norm_num) (by norm_num)]
  norm_num

theorem criacaoExemplo :
    createOrder reqComprador estadoExemplo = (.ok pedidoExemplo, estadoExemploFinal) := by
  norm_num [createOrder, createOrderBody, findCart, resolveEndereco, validarItens,
    findProduct, getPrecoFinal, orderCreate, pedidoNovo, valorTotalOf, criarItens,
    orderItemCreate, decrementEstoque, round2_exemplo, reqComprador, estadoExemplo,
    produtoBase, produtoQueijo, enderecoBase, pedidoExemplo, estadoExemploFinal]

/-- Witness for C2 on the spec example: lines (qty 2, price 5.00) and
(qty 1, price 3.50) give subtotals 10.00 and 3.50 and total 13.50. -/
theorem createOrder_total_and_subtotals_witness :
    (∀ oi ∈ estadoExemploFinal.orderItems.filter
        (fun oi => oi.orderId == pedidoExemplo.id),
        oi.subtotal = (oi.quantidade : ℚ) * oi.precoUnitario)
    ∧ pedidoExemplo.valorTotal = round2 (((estadoExemploFinal.orderItems.filter
          (fun oi => oi.orderId == pedidoExemplo.id)).map OrderItem.subtotal).sum) :=
  createOrder_total_and_subtotals reqComprador estadoExemplo pedidoExemplo estadoExemploFinal
    (by intro oi hoi; simp [estadoExemplo] at hoi) criacaoExemplo

/-- C3. getPrecoFinal is the discounted price, price times
(1 - discountPercent/100) under an active promotion and the list price
otherwise; every line of a created order snapshots that price as its
unitPriceAtPurchase for the product it references; and later catalog updates
never touch stored order lines, so the snapshot is independent of them. -/
theorem createOrder_price_snapshot (req : CreateOrderReq) (st : DBState)
    (order : Order) (st' : DBState)
    (hfresh : ∀ oi ∈ st.orderItems, oi.orderId ≠ st.nextOrderId)
    (h : createOrder req st = (.ok order, st')) :
    (∀ p : Product, getPrecoFinal p
        = if p.promocao then p.preco * (1 - (p.percentualDesconto.getD 0 : ℚ) / 100)
          else p.preco)
    ∧ (∀ oi ∈ st'.orderItems.filter (fun oi => oi.orderId == order.id),
        ∃ p, findProduct st oi.productId = some p ∧ oi.precoUnitario = getPrecoFinal p)
    ∧ (∀ (pid uid : Nat) (r : UpdateProductReq),
        ((updateProduct pid uid r st').2).orderItems = st'.orderItems) := by
  obtain ⟨cart, endereco, itens, hc, hne, hres, hval, hmin, hord, hst⟩ :=
    createOrderBody_ok_inv req st order st' (createOrder_ok_to_body req st order st' h)
  have hid : order.id = st.nextOrderId := by rw [hord]; rfl
  have hfresh' : ∀ oi ∈ st.orderItems, oi.orderId ≠ order.id := by
    intro oi hoi
    rw [hid]
    exact hfresh oi hoi
  have hlines : st'.orderItems.filter (fun oi => oi.orderId == order.id)
      = itens.map (mkItem order.id) := by
    rw [hst]
    exact posCriacao_lines st cart.id order itens hfresh'
  refine ⟨?_, ?_, ?_⟩
  · intro p
    rw [getPrecoFinal]
    by_cases hp : p.promocao = true
    · by_cases hd : p.percentualDesconto.getD 0 = 0
      · simp [hp, hd]
      · have hd' : (p.percentualDesconto.getD 0 != 0) = true := by simpa using hd
        simp only [hp, hd', Bool.and_self, if_pos]
        ring
    · simp [hp]
  · intro oi hoi
    rw [hlines] at hoi
    obtain ⟨it, hit, rfl⟩ := List.mem_map.mp hoi
    obtain ⟨p, hfp, hpreco⟩ := forall₂_preco st cart.itens itens
      (validarItens_ok_inv st cart.itens itens hval) it hit
    exact ⟨p, hfp, hpreco⟩
  · intro pid uid r
    rw [updateProduct]
    repeat' split
    all_goals rfl

/-- A product priced 10.00 with an active 20 percent discount. -/
def produtoUva : Product :=
  { produtoBase with nome := "Uva", preco := 10, promocao := true,
                     percentualDesconto := some 20 }

/-- Buyer 3's cart holding one unit of the discounted product. -/
def estadoDesconto : DBState :=
  { products := [produtoUva],
    carts := [{ id := 1, userId := 3, itens := [{ productId := 1, quantidade := 1 }] }],
    addresses := [enderecoBase], orders := [], orderItems := [], categories := [1],
    nextOrderId := 5 }

/-- The resulting order: unitPriceAtPurchase 8.00. -/
def pedidoDesconto : Order :=
  { id := 5, consumidorId := 3, status := "pendente", valorTotal := 8,
    enderecoEntrega := enderecoBase, observacoes := none, dataEntregaPrevista := none,
    dataEntregaRealizada := none }

/-- The state after the discounted order commits. -/
def estadoDescontoFinal : DBState :=
  { products := [{ produtoUva with estoque := 9 }],
    carts := [{ id := 1, userId := 3, itens := [] }],
    addresses := [enderecoBase],
    orders := [pedidoDesconto],
    orderItems := [{ orderId := 5, productId := 1, quantidade := 1,
                     precoUnitario := 8, subtotal := 8 }],
    categories := [1], nextOrderId := 6 }

theorem round2_oito : round2 (8 : ℚ) = 8 := by
  rw [round2_eq 8 800 (by norm_num) (by norm_num)]
  norm_num

theorem criacaoDesconto :
    createOrder reqComprador estadoDesconto = (.ok pedidoDesconto, estadoDescontoFinal) := by
  norm_num [createOrder, createOrderBody, findCart, resolveEndereco, validarItens,
    findProduct, getPrecoFinal, orderCreate, pedidoNovo, valorTotalOf, criarItens,
    orderItemCreate, decrementEstoque, round2_oito, reqComprador, estadoDesconto,
    produtoBase, produtoUva, enderecoBase, pedidoDesconto, estadoDescontoFinal]

/-- Witness for C3 on the spec example: price 10.00 with an active 20 percent
discount snapshots unitPriceAtPurchase 8.00. -/
theorem createOrder_price_snapshot_witness :
    (∀ p : Product, getPrecoFinal p
        = if p.promocao then p.preco * (1 - (p.percentualDesconto.getD 0 : ℚ) / 100)
          else p.preco)
    ∧ (∀ oi ∈ estadoDescontoFinal.orderItems.filter
          (fun oi => oi.orderId == pedidoDesconto.id),
        ∃ p, findProduct estadoDesconto oi.productId = some p
          ∧ oi.precoUnitario = getPrecoFinal p)
    ∧ (∀ (pid uid : Nat) (r : UpdateProductReq),
        ((updateProduct pid uid r estadoDescontoFinal).2).orderItems
          = estadoDescontoFinal.orderItems) :=
  createOrder_price_snapshot reqComprador estadoDesconto pedidoDesconto estadoDescontoFinal
    (by intro oi hoi; simp [estadoDesconto] at hoi) criacaoDesconto

/-- C5. Create-then-cancel is a stock round trip: an order created from a
cart (which decrements each referenced product's stock) can be cancelled
while still pendente, the cancellation increments each referenced product's
stock by the same quantities and records status cancelado, and every
product's stock returns exactly to its pre-order value. -/
theorem create_then_cancel_restores_stock (req : CreateOrderReq) (st : DBState)
    (order : Order) (st' : DBState)
    (hfreshO : ∀ o ∈ st.orders, o.id ≠ st.nextOrderId)
    (hfreshI : ∀ oi ∈ st.orderItems, oi.orderId ≠ st.nextOrderId)
    (h : createOrder req st = (.ok order, st')) :
    ∃ st'', cancelOrder order.id req.userId st'
        = (.ok { order with status := "cancelado" }, st'')
      ∧ st''.products = st.products
      ∧ (∀ o ∈ st''.orders, o.id = order.id → o.status = "cancelado") := by
  obtain ⟨cart, endereco, itens, hc, hne, hres, hval, hmin, hord, hst⟩ :=
    createOrderBody_ok_inv req st order st' (createOrder_ok_to_body req st order st' h)
  have hid : order.id = st.nextOrderId := by rw [hord]; rfl
  have hcons : order.consumidorId = req.userId := by rw [hord]; rfl
  have hstat : order.status = "pendente" := by rw [hord]; rfl
  have hfresh' : ∀ oi ∈ st.orderItems, oi.orderId ≠ order.id := by
    intro oi hoi
    rw [hid]
    exact hfreshI oi hoi
  have hordersSt' : st'.orders = st.orders ++ [order] := by rw [hst]; rfl
  have hfind : st'.orders.find?
      (fun o => o.id == order.id && o.consumidorId == req.userId) = some order := by
    rw [hordersSt', List.find?_append]
    have h1 : st.orders.find?
        (fun o => o.id == order.id && o.consumidorId == req.userId) = none := by
      rw [List.find?_eq_none]
      intro o ho
      simp only [Bool.and_eq_true, beq_iff_eq, not_and]
      intro hoid
      exact absurd (hid ▸ hoid) (hfreshO o ho)
    rw [h1]
    simp [hcons]
  have hpode : podeCancelar order = true := by
    rw [podeCancelar, hstat]
    rfl
  have hlines : st'.orderItems.filter (fun oi => oi.orderId == order.id)
      = itens.map (mkItem order.id) := by
    rw [hst]
    exact posCriacao_lines st cart.id order itens hfresh'
  have hprods : st'.products
      = (pairsOfItens itens).foldl (fun a x => decrementEstoque a x.1 x.2) st.products := by
    rw [hst]
    rfl
  refine ⟨{ st' with
      products := (st'.orderItems.filter (fun oi => oi.orderId == order.id)).foldl
        (fun ps oi => incrementEstoque ps oi.productId oi.quantidade) st'.products,
      orders := st'.orders.map
        (fun o => if o.id == order.id then { o with status := "cancelado" } else o) },
    ?_, ?_, ?_⟩
  · simp [cancelOrder, cancelOrderBody, hfind, hpode]
  · show (st'.orderItems.filter (fun oi => oi.orderId == order.id)).foldl
        (fun ps oi => incrementEstoque ps oi.productId oi.quantidade) st'.products
      = st.products
    rw [hlines, hprods, List.foldl_map]
    have h2 := increment_undoes_decrement (pairsOfItens itens) st.products
    rw [pairsOfItens, List.foldl_map] at h2
    exact h2
  · intro o ho hoid
    simp only [List.mem_map] at ho
    obtain ⟨o0, ho0, rfl⟩ := ho
    by_cases hb : (o0.id == order.id) = true
    · simp [hb]
    · simp only [hb, if_false, Bool.false_eq_true] at hoid ⊢
      exact absurd (by simpa using hoid) (by simpa using hb)

/-- The spec example cart: quantity 3 of the stock-10 product. -/
def estadoQty3 : DBState :=
  { products := [produtoBase],
    carts := [{ id := 1, userId := 3, itens := [{ productId := 1, quantidade := 3 }] }],
    addresses := [enderecoBase], orders := [], orderItems := [], categories := [1],
    nextOrderId := 5 }

/-- The order that cart produces: total 15.00. -/
def pedidoQty3 : Order :=
  { id := 5, consumidorId := 3, status := "pendente", valorTotal := 15,
    enderecoEntrega := enderecoBase, observacoes := none, dataEntregaPrevista := none,
    dataEntregaRealizada := none }

/-- The committed state: stock decremented from 10 to 7. -/
def estadoCriado3 : DBState :=
  { products := [{ produtoBase with estoque := 7 }],
    carts := [{ id := 1, userId := 3, itens := [] }],
    addresses := [enderecoBase],
    orders := [pedidoQty3],
    orderItems := [{ orderId := 5, productId := 1, quantidade := 3,
                     precoUnitario := 5, subtotal := 15 }],
    categories := [1], nextOrderId := 6 }

theorem round2_quinze : round2 (15 : ℚ) = 15 := by
  rw [round2_eq 15 1500 (by norm_num) (by norm_num)]
  norm_num

theorem criacaoQty3 :
    createOrder reqComprador estadoQty3 = (.ok pedidoQty3, estadoCriado3) := by
  norm_num [createOrder, createOrderBody, findCart, resolveEndereco, validarItens,
    findProduct, getPrecoFinal, orderCreate, pedidoNovo, valorTotalOf, criarItens,
    orderItemCreate, decrementEstoque, round2_quinze, reqComprador, estadoQty3,
    produtoBase, enderecoBase, pedidoQty3, estadoCriado3]

/-- Witness for C5 on the spec example: stock 10, order of quantity 3,
cancellation leaves stock 10. -/
theorem create_then_cancel_restores_stock_witness :
    ∃ st'', cancelOrder pedidoQty3.id reqComprador.userId estadoCriado3
        = (.ok { pedidoQty3 with status := "cancelado" }, st'')
      ∧ st''.products = estadoQty3.products
      ∧ (∀ o ∈ st''.orders, o.id = pedidoQty3.id → o.status = "cancelado") :=
  create_then_cancel_restores_stock reqComprador estadoQty3 pedidoQty3 estadoCriado3
    (by intro o ho; simp [estadoQty3] at ho)
    (by intro oi hoi; simp [estadoQty3] at hoi)
    criacaoQty3

/-- C6 (amended). The decrement createOrder issues is an unconditional
single-row update with no stock guard; still, under sequential execution and
the schema invariants (unique product ids, the unique (cartId, productId)
index), any createOrder call on a state with nonnegative stocks leaves every
stock nonnegative, because each line's sufficiency was checked against the
same snapshot before the decrements run. -/
theorem createOrder_stock_nonnegative (req : CreateOrderReq) (st : DBState)
    (r : Except ApiError Order) (st' : DBState)
    (hids : (st.products.map Product.id).Nodup)
    (hcarts : ∀ c ∈ st.carts, (c.itens.map CartItem.productId).Nodup)
    (hpos : ∀ p ∈ st.products, 0 ≤ p.estoque)
    (h : createOrder req st = (r, st')) :
    ∀ p ∈ st'.products, 0 ≤ p.estoque := by
  cases r with
  | error e =>
    rw [(createOrder_error_state req st e st' h).1]
    exact hpos
  | ok order =>
    obtain ⟨cart, endereco, itens, hc, hne, hres, hval, hmin, hord, hst⟩ :=
      createOrderBody_ok_inv req st order st' (createOrder_ok_to_body req st order st' h)
    rw [hst]
    intro p hp
    have hp2 : p ∈ ((pairsOfItens itens).foldl
        (fun a x => decrementEstoque a x.1 x.2) st.products) := hp
    rw [foldl_decrement_eq_map] at hp2
    obtain ⟨p0, hp0, rfl⟩ := List.mem_map.mp hp2
    show 0 ≤ p0.estoque - sumPairs (pairsOfItens itens) p0.id
    have hforall := validarItens_ok_inv st cart.itens itens hval
    rw [forall₂_pairs st cart.itens itens hforall]
    have hmemcart : cart ∈ st.carts := List.mem_of_find?_eq_some hc
    have hsum : sumPairs (cart.itens.map fun item => (item.productId, item.quantidade))
        p0.id ≤ p0.estoque := by
      apply sumPairs_le cart.itens p0.id p0.estoque (hcarts cart hmemcart) (hpos p0 hp0)
      intro item hitem hpid
      obtain ⟨pi, hfpi, hle⟩ := forall₂_stock_bound st cart.itens itens hforall item hitem
      rw [hpid] at hfpi
      have hself : findProduct st p0.id = some p0 :=
        find?_id_of_nodup st.products hids p0 hp0
      rw [hself] at hfpi
      cases hfpi
      exact hle
    exact sub_nonneg.mpr hsum

/-- Witness for C6: the concrete quantity-3 purchase leaves the one product's
stock at 7, still nonnegative. -/
theorem createOrder_stock_nonnegative_witness :
    (0 : Int) ≤ ({ produtoBase with estoque := 7 } : Product).estoque :=
  createOrder_stock_nonnegative reqComprador estadoQty3 (.ok pedidoQty3) estadoCriado3
    (by decide) (by decide) (by decide) criacaoQty3
    { produtoBase with estoque := 7 } (List.mem_cons_self _ _)

/-- Counterexample for C6 as stated: the decrement operation is not the
conditional update stock = stock - amount WHERE stock >= amount; invoked with
amount 2 on stock 1 it subtracts anyway and the stock turns negative. -/
theorem decrement_unconditional_counterexample :
    ({ produtoBase with estoque := 1 } : Product).estoque < 2
    ∧ (decrementEstoque [{ produtoBase with estoque := 1 }] 1 2).map Product.estoque
        = [-1] := by
  constructor
  · decide
  · rfl

end Marketplace
